import Mathlib

/-!
Shallow embedding of the C shim in `Sources/CSQLite` of sqlite-extension-kit:
`SQLiteVirtualTable.c`, `sqlite_extension_init.c` and `sqlite_snapshot_shim.c`.

Pointers that the shim never dereferences are modelled as opaque tagged
naturals (the pointer value itself); nullable pointers and in-memory cells
that the shim reads or writes are modelled as `Option` values.  The extern
Swift capability functions (`SQLiteExtensionKit_VirtualTableCreate`, ...)
are link-time parameters of the C file, so they appear here as a record of
function parameters.  Out-parameters written through pointers are modelled
by explicit state passing: a function receives the old content of the cell
and returns the new content.
-/

namespace SQLiteExtensionKit

/-- `SQLITE_OK` (sqlite3.h). -/
def SQLITE_OK : Int := 0

/-- `SQLITE_ERROR` (sqlite3.h), the generic failure status. -/
def SQLITE_ERROR : Int := 1

/-- Opaque `sqlite3 *` database connection pointer. -/
structure Sqlite3 where
  id : Nat
deriving DecidableEq, Repr

/-- Opaque `void *` module-context pointer. -/
structure VoidPtr where
  id : Nat
deriving DecidableEq, Repr

/-- Opaque `const char *const *` argument-vector pointer (create/connect argv). -/
structure CharPP where
  id : Nat
deriving DecidableEq, Repr

/-- Opaque `SQLiteVirtualTable *` handle.  The C struct begins with its
`sqlite3_vtab base` member, so the cast `(sqlite3_vtab *)table` in the shim
is the identity on the address: both views share this one pointer type. -/
structure VTabHandle where
  id : Nat
deriving DecidableEq, Repr

/-- Opaque `SQLiteVirtualCursor *` handle; as with tables, the
`sqlite3_vtab_cursor base` prefix makes the C cast the identity address. -/
structure CursorHandle where
  id : Nat
deriving DecidableEq, Repr

/-- Opaque `sqlite3_index_info *` pointer (planning structure, forwarded
untouched). -/
structure IndexInfo where
  id : Nat
deriving DecidableEq, Repr

/-- Opaque `sqlite3_context *` result-sink pointer. -/
structure Sqlite3Ctx where
  id : Nat
deriving DecidableEq, Repr

/-- Opaque `sqlite3_value *` pointer; `sqlite3_value **argv` is the array of
these pointed to by the argv pointer, modelled as the list of its elements. -/
structure Sqlite3Value where
  id : Nat
deriving DecidableEq, Repr

/-- Opaque `sqlite3_int64 *` out-pointer for xRowid. -/
structure RowidPtr where
  id : Nat
deriving DecidableEq, Repr

/-- Opaque `const sqlite3_api_routines *` pointer (extension API table). -/
structure ApiRoutines where
  id : Nat
deriving DecidableEq, Repr

/-- Opaque `sqlite3_snapshot *` handle. -/
structure SnapshotHandle where
  id : Nat
deriving DecidableEq, Repr

/-- Result of the extern Swift factory `SQLiteExtensionKit_VirtualTableCreate`:
its status, the final content of the `SQLiteVirtualTable *table` cell whose
address the shim passes (the cell starts `NULL`), and the final content of
the `*pzErr` cell. -/
structure VirtualTableCreateResult where
  rc : Int
  outTable : Option VTabHandle
  pzErr : Option String
deriving DecidableEq, Repr

/-- Result of the extern Swift `SQLiteExtensionKit_VirtualTableOpen`: its
status and the final content of the `SQLiteVirtualCursor *cursor` cell whose
address the shim passes (the cell starts `NULL`). -/
structure VirtualTableOpenResult where
  rc : Int
  outCursor : Option CursorHandle
deriving DecidableEq, Repr

/-- The extern Swift capability functions the C file links against
(declared `extern` at the top of `SQLiteVirtualTable.c`).  Field names are
the extern symbols.  Nullable scalar inputs the callee may inspect
(`argv` strings for filter, `idxStr`) are `Option`-typed; everything the
shim merely forwards is opaque. -/
structure SwiftCapabilities where
  SQLiteExtensionKit_VirtualTableCreate :
    VoidPtr → Sqlite3 → Int → CharPP → Option VTabHandle → Option String → Int →
      VirtualTableCreateResult
  SQLiteExtensionKit_VirtualTableBestIndex : VTabHandle → IndexInfo → Int
  SQLiteExtensionKit_VirtualTableDisconnect : VTabHandle → Int
  SQLiteExtensionKit_VirtualTableDestroy : VTabHandle → Int
  SQLiteExtensionKit_VirtualTableOpen :
    VTabHandle → Option CursorHandle → VirtualTableOpenResult
  SQLiteExtensionKit_VirtualTableClose : CursorHandle → Int
  SQLiteExtensionKit_VirtualTableFilter :
    CursorHandle → Int → Option String → List Sqlite3Value → Int → Int
  SQLiteExtensionKit_VirtualTableNext : CursorHandle → Int
  SQLiteExtensionKit_VirtualTableEof : CursorHandle → Int
  SQLiteExtensionKit_VirtualTableColumn : CursorHandle → Sqlite3Ctx → Int → Int
  SQLiteExtensionKit_VirtualTableRowid : CursorHandle → RowidPtr → Int

/-- What an engine-facing create/connect entry point leaves behind: the
returned status, the content of the `*ppVTab` cell after the call, and the
content of the `*pzErr` cell after the call. -/
structure CreateEntryResult where
  rc : Int
  ppVTab : Option VTabHandle
  pzErr : Option String
deriving DecidableEq, Repr

/-- What the engine-facing open entry point leaves behind: the returned
status and the content of the `*ppCursor` cell after the call. -/
structure OpenEntryResult where
  rc : Int
  ppCursor : Option CursorHandle
deriving DecidableEq, Repr

/-- `swiftCreate` (SQLiteVirtualTable.c:51-76): shared factory behind the
xCreate/xConnect thunks.  A local `SQLiteVirtualTable *table = NULL` cell is
passed by address to the Swift factory together with `pzErr`; on
`rc == SQLITE_OK` the shim stores the cell into `*ppVTab`; otherwise
`*ppVTab` keeps its prior content.  The status is returned unchanged. -/
def swiftCreate (cap : SwiftCapabilities) (db : Sqlite3) (context : VoidPtr)
    (argc : Int) (argv : CharPP) (ppVTab : Option VTabHandle)
    (pzErr : Option String) (isCreate : Int) : CreateEntryResult :=
  let table : Option VTabHandle := none
  let r := cap.SQLiteExtensionKit_VirtualTableCreate context db argc argv table
    pzErr isCreate
  { rc := r.rc
    ppVTab := if r.rc = SQLITE_OK then r.outTable else ppVTab
    pzErr := r.pzErr }

/-- `swiftCreateThunk` (SQLiteVirtualTable.c:78-87): xCreate slot, calls
`swiftCreate` with `isCreate = 1`. -/
def swiftCreateThunk (cap : SwiftCapabilities) (db : Sqlite3) (context : VoidPtr)
    (argc : Int) (argv : CharPP) (ppVTab : Option VTabHandle)
    (pzErr : Option String) : CreateEntryResult :=
  swiftCreate cap db context argc argv ppVTab pzErr 1

/-- `swiftConnectThunk` (SQLiteVirtualTable.c:89-98): xConnect slot, calls
`swiftCreate` with `isCreate = 0`. -/
def swiftConnectThunk (cap : SwiftCapabilities) (db : Sqlite3) (context : VoidPtr)
    (argc : Int) (argv : CharPP) (ppVTab : Option VTabHandle)
    (pzErr : Option String) : CreateEntryResult :=
  swiftCreate cap db context argc argv ppVTab pzErr 0

/-- `swiftBestIndex` (SQLiteVirtualTable.c:100-105): forwards the handle and
the `sqlite3_index_info *` pointer unmodified to the Swift capability. -/
def swiftBestIndex (cap : SwiftCapabilities) (pVTab : VTabHandle)
    (info : IndexInfo) : Int :=
  cap.SQLiteExtensionKit_VirtualTableBestIndex pVTab info

/-- `swiftDisconnect` (SQLiteVirtualTable.c:107-109). -/
def swiftDisconnect (cap : SwiftCapabilities) (pVTab : VTabHandle) : Int :=
  cap.SQLiteExtensionKit_VirtualTableDisconnect pVTab

/-- `swiftDestroy` (SQLiteVirtualTable.c:111-113). -/
def swiftDestroy (cap : SwiftCapabilities) (pVTab : VTabHandle) : Int :=
  cap.SQLiteExtensionKit_VirtualTableDestroy pVTab

/-- `swiftOpen` (SQLiteVirtualTable.c:115-127): a local
`SQLiteVirtualCursor *cursor = NULL` cell is passed by address to the Swift
capability; on `rc == SQLITE_OK` the cell is stored into `*ppCursor`,
otherwise `*ppCursor` keeps its prior content.  Status returned unchanged. -/
def swiftOpen (cap : SwiftCapabilities) (pVTab : VTabHandle)
    (ppCursor : Option CursorHandle) : OpenEntryResult :=
  let cursor : Option CursorHandle := none
  let r := cap.SQLiteExtensionKit_VirtualTableOpen pVTab cursor
  { rc := r.rc
    ppCursor := if r.rc = SQLITE_OK then r.outCursor else ppCursor }

/-- `swiftClose` (SQLiteVirtualTable.c:129-131). -/
def swiftClose (cap : SwiftCapabilities) (pCursor : CursorHandle) : Int :=
  cap.SQLiteExtensionKit_VirtualTableClose pCursor

/-- `swiftFilter` (SQLiteVirtualTable.c:133-147): receives
`(pCursor, idxNum, idxStr, argc, argv)` from the engine and calls the Swift
capability at `(cursor, idxNum, idxStr, argv, argc)` — the same values, with
the capability taking the array before the count. -/
def swiftFilter (cap : SwiftCapabilities) (pCursor : CursorHandle)
    (idxNum : Int) (idxStr : Option String) (argc : Int)
    (argv : List Sqlite3Value) : Int :=
  cap.SQLiteExtensionKit_VirtualTableFilter pCursor idxNum idxStr argv argc

/-- `swiftNext` (SQLiteVirtualTable.c:149-151). -/
def swiftNext (cap : SwiftCapabilities) (pCursor : CursorHandle) : Int :=
  cap.SQLiteExtensionKit_VirtualTableNext pCursor

/-- `swiftEof` (SQLiteVirtualTable.c:153-155). -/
def swiftEof (cap : SwiftCapabilities) (pCursor : CursorHandle) : Int :=
  cap.SQLiteExtensionKit_VirtualTableEof pCursor

/-- `swiftColumn` (SQLiteVirtualTable.c:157-167). -/
def swiftColumn (cap : SwiftCapabilities) (pCursor : CursorHandle)
    (context : Sqlite3Ctx) (column : Int) : Int :=
  cap.SQLiteExtensionKit_VirtualTableColumn pCursor context column

/-- `swiftRowid` (SQLiteVirtualTable.c:169-174): forwards the cursor and the
`sqlite3_int64 *rowid` out-pointer unchanged. -/
def swiftRowid (cap : SwiftCapabilities) (pCursor : CursorHandle)
    (rowid : RowidPtr) : Int :=
  cap.SQLiteExtensionKit_VirtualTableRowid pCursor rowid

/-- The `sqlite3_module` dispatch-table struct, with each function-pointer
slot modelled as an `Option` of the slot's function type (`none` = `NULL`).
Field order and slot signatures follow the C struct through `xRollbackTo`,
the last slot initialised in `SQLiteVirtualTable.c`. -/
structure Sqlite3Module where
  iVersion : Int
  xCreate : Option (Sqlite3 → VoidPtr → Int → CharPP → Option VTabHandle →
    Option String → CreateEntryResult)
  xConnect : Option (Sqlite3 → VoidPtr → Int → CharPP → Option VTabHandle →
    Option String → CreateEntryResult)
  xBestIndex : Option (VTabHandle → IndexInfo → Int)
  xDisconnect : Option (VTabHandle → Int)
  xDestroy : Option (VTabHandle → Int)
  xOpen : Option (VTabHandle → Option CursorHandle → OpenEntryResult)
  xClose : Option (CursorHandle → Int)
  xFilter : Option (CursorHandle → Int → Option String → Int →
    List Sqlite3Value → Int)
  xNext : Option (CursorHandle → Int)
  xEof : Option (CursorHandle → Int)
  xColumn : Option (CursorHandle → Sqlite3Ctx → Int → Int)
  xRowid : Option (CursorHandle → RowidPtr → Int)
  xUpdate : Option (VTabHandle → Int → List Sqlite3Value → RowidPtr → Int)
  xBegin : Option (VTabHandle → Int)
  xSync : Option (VTabHandle → Int)
  xCommit : Option (VTabHandle → Int)
  xRollback : Option (VTabHandle → Int)
  xFindFunction : Option (VTabHandle → Int → Option String → Int)
  xRename : Option (VTabHandle → Option String → Int)
  xSavepoint : Option (VTabHandle → Int → Int)
  xRelease : Option (VTabHandle → Int → Int)
  xRollbackTo : Option (VTabHandle → Int → Int)

/-- `SwiftVirtualTableModule` (SQLiteVirtualTable.c:176-200): the static
dispatch table registered with the engine — version 1, the twelve
version-1 slots populated with the shim entry points, the remaining ten
slots `NULL`. -/
def SwiftVirtualTableModule (cap : SwiftCapabilities) : Sqlite3Module where
  iVersion := 1
  xCreate := some (swiftCreateThunk cap)
  xConnect := some (swiftConnectThunk cap)
  xBestIndex := some (swiftBestIndex cap)
  xDisconnect := some (swiftDisconnect cap)
  xDestroy := some (swiftDestroy cap)
  xOpen := some (swiftOpen cap)
  xClose := some (swiftClose cap)
  xFilter := some (swiftFilter cap)
  xNext := some (swiftNext cap)
  xEof := some (swiftEof cap)
  xColumn := some (swiftColumn cap)
  xRowid := some (swiftRowid cap)
  xUpdate := none
  xBegin := none
  xSync := none
  xCommit := none
  xRollback := none
  xFindFunction := none
  xRename := none
  xSavepoint := none
  xRelease := none
  xRollbackTo := none

/-- `SQLiteExtensionKit_CreateVirtualTableModule` (SQLiteVirtualTable.c:
202-209): forwards to the engine's `sqlite3_create_module_v2` (a link-time
parameter, passed explicitly here) with the static module and the caller's
arguments, returning the engine's status unchanged. -/
def SQLiteExtensionKit_CreateVirtualTableModule
    (sqlite3_create_module_v2 :
      Sqlite3 → Option String → Sqlite3Module → VoidPtr →
        Option (VoidPtr → Unit) → Int)
    (cap : SwiftCapabilities) (db : Sqlite3) (name : Option String)
    (context : VoidPtr) (xDestroy : Option (VoidPtr → Unit)) : Int :=
  sqlite3_create_module_v2 db name (SwiftVirtualTableModule cap) context xDestroy

/-- The mutable part of a `sqlite3_vtab` header that the error-setter
touches (sqlite3.h: `pModule`, `nRef`, `zErrMsg`); `zErrMsg` is the
nullable error-string slot, the other fields are carried opaquely so that
we can state that the setter leaves them alone. -/
structure Sqlite3VtabState where
  pModule : Nat
  nRef : Int
  zErrMsg : Option String
deriving DecidableEq, Repr

/-- `sqlite3_mprintf("%s", s)`: formats `s` with no width or precision
limit, producing a fresh copy whose contents equal `s`. -/
def sqlite3_mprintf_s (s : String) : String := s

/-- `SQLiteExtensionKit_VirtualTableSetError` (SQLiteVirtualTable.c:
211-218): returns immediately on a `NULL` handle; otherwise frees the old
`zErrMsg` and stores `sqlite3_mprintf("%s", message ? message :
"Virtual table error")`.  Modelled as a function from the pointed-to
handle state (`none` = `NULL` pointer) to its state after the call. -/
def SQLiteExtensionKit_VirtualTableSetError (vtab : Option Sqlite3VtabState)
    (message : Option String) : Option Sqlite3VtabState :=
  match vtab with
  | none => none
  | some v =>
      let afterFree : Sqlite3VtabState := { v with zErrMsg := none }
      some { afterFree with
        zErrMsg := some (sqlite3_mprintf_s
          (match message with
           | some m => m
           | none => "Virtual table error")) }

/-- The globals of `sqlite_extension_init.c`: the `sqlite3_api` pointer
declared by `SQLITE_EXTENSION_INIT1` and the flag
`gSQLiteExtensionKitInitialized`. -/
structure ExtensionInitState where
  sqlite3_api : Option ApiRoutines
  gSQLiteExtensionKitInitialized : Int
deriving DecidableEq, Repr

/-- The static initialisers: `sqlite3_api = 0` and
`gSQLiteExtensionKitInitialized = 0`. -/
def extensionInitStartState : ExtensionInitState :=
  { sqlite3_api := none, gSQLiteExtensionKitInitialized := 0 }

/-- `SQLiteExtensionKitInitialize` (sqlite_extension_init.c:8-11):
`SQLITE_EXTENSION_INIT2(pApi)` assigns `sqlite3_api = pApi`, then the flag
is set to the C truth value of `pApi != NULL`. -/
def SQLiteExtensionKitInitialize (s : ExtensionInitState)
    (pApi : Option ApiRoutines) : ExtensionInitState :=
  let s1 : ExtensionInitState := { s with sqlite3_api := pApi }
  { s1 with gSQLiteExtensionKitInitialized := if pApi ≠ none then 1 else 0 }

/-- `SQLiteExtensionKitIsInitialized` (sqlite_extension_init.c:13-15). -/
def SQLiteExtensionKitIsInitialized (s : ExtensionInitState) : Int :=
  s.gSQLiteExtensionKitInitialized

/-- The process state after a sequence of `SQLiteExtensionKitInitialize`
calls (given by their `pApi` arguments, oldest first) starting from the
static initial state. -/
def runInitCalls (calls : List (Option ApiRoutines)) : ExtensionInitState :=
  calls.foldl SQLiteExtensionKitInitialize extensionInitStartState

/-- `sqlite3_snapshot_open` stub (sqlite_snapshot_shim.c:12-17, compiled
when `SQLITE_ENABLE_SNAPSHOT` is absent): ignores all arguments and
returns `SQLITE_ERROR`. -/
def sqlite3_snapshot_open (db : Option Sqlite3) (zSchema : Option String)
    (pSnapshot : Option SnapshotHandle) : Int :=
  let _ := db
  let _ := zSchema
  let _ := pSnapshot
  SQLITE_ERROR

/-- `sqlite3_snapshot_get` stub (sqlite_snapshot_shim.c:19-26): if the
out-pointer `ppSnapshot` is non-`NULL`, writes `NULL` into its cell; then
returns `SQLITE_ERROR`.  The outer `Option` is the nullability of the
pointer itself, the inner one the nullable handle stored in the cell; the
second component of the result is the cell content after the call. -/
def sqlite3_snapshot_get (db : Option Sqlite3) (zSchema : Option String)
    (ppSnapshot : Option (Option SnapshotHandle)) :
    Int × Option (Option SnapshotHandle) :=
  let _ := db
  let _ := zSchema
  let cell := match ppSnapshot with
    | none => none
    | some _ => some (none : Option SnapshotHandle)
  (SQLITE_ERROR, cell)

/-- `sqlite3_snapshot_free` stub (sqlite_snapshot_shim.c:28-30): ignores
its argument and returns nothing (`void`). -/
def sqlite3_snapshot_free (pSnapshot : Option SnapshotHandle) : Unit :=
  let _ := pSnapshot
  ()

/-- `sqlite3_snapshot_cmp` stub (sqlite_snapshot_shim.c:32-36): ignores
both arguments and returns `SQLITE_ERROR`. -/
def sqlite3_snapshot_cmp (p1 p2 : Option SnapshotHandle) : Int :=
  let _ := p1
  let _ := p2
  SQLITE_ERROR

/-- C1: every dispatch entry point (create, connect, best-index,
disconnect, destroy, open, close, filter, next, eof, column, rowid) and
the registration call return to the engine exactly the status produced by
the underlying capability call they forward to, for every capability and
hence for every possible status value: the shim never maps, replaces or
reinterprets a status. -/
theorem c1_status_transparent_forwarding :
    ∀ (cap : SwiftCapabilities)
      (cmv2 : Sqlite3 → Option String → Sqlite3Module → VoidPtr →
        Option (VoidPtr → Unit) → Int)
      (db : Sqlite3) (context : VoidPtr) (argc : Int) (argv : CharPP)
      (ppVTab : Option VTabHandle) (pzErr : Option String) (isCreate : Int)
      (pVTab : VTabHandle) (info : IndexInfo)
      (ppCursor : Option CursorHandle) (pCursor : CursorHandle)
      (idxNum : Int) (idxStr : Option String) (fargc : Int)
      (fargv : List Sqlite3Value) (sctx : Sqlite3Ctx) (column : Int)
      (rowid : RowidPtr) (name : Option String)
      (xDestroy : Option (VoidPtr → Unit)),
      (swiftCreate cap db context argc argv ppVTab pzErr isCreate).rc =
        (cap.SQLiteExtensionKit_VirtualTableCreate context db argc argv none
          pzErr isCreate).rc ∧
      (swiftCreateThunk cap db context argc argv ppVTab pzErr).rc =
        (cap.SQLiteExtensionKit_VirtualTableCreate context db argc argv none
          pzErr 1).rc ∧
      (swiftConnectThunk cap db context argc argv ppVTab pzErr).rc =
        (cap.SQLiteExtensionKit_VirtualTableCreate context db argc argv none
          pzErr 0).rc ∧
      swiftBestIndex cap pVTab info =
        cap.SQLiteExtensionKit_VirtualTableBestIndex pVTab info ∧
      swiftDisconnect cap pVTab =
        cap.SQLiteExtensionKit_VirtualTableDisconnect pVTab ∧
      swiftDestroy cap pVTab =
        cap.SQLiteExtensionKit_VirtualTableDestroy pVTab ∧
      (swiftOpen cap pVTab ppCursor).rc =
        (cap.SQLiteExtensionKit_VirtualTableOpen pVTab none).rc ∧
      swiftClose cap pCursor =
        cap.SQLiteExtensionKit_VirtualTableClose pCursor ∧
      swiftFilter cap pCursor idxNum idxStr fargc fargv =
        cap.SQLiteExtensionKit_VirtualTableFilter pCursor idxNum idxStr fargv
          fargc ∧
      swiftNext cap pCursor =
        cap.SQLiteExtensionKit_VirtualTableNext pCursor ∧
      swiftEof cap pCursor =
        cap.SQLiteExtensionKit_VirtualTableEof pCursor ∧
      swiftColumn cap pCursor sctx column =
        cap.SQLiteExtensionKit_VirtualTableColumn pCursor sctx column ∧
      swiftRowid cap pCursor rowid =
        cap.SQLiteExtensionKit_VirtualTableRowid pCursor rowid ∧
      SQLiteExtensionKit_CreateVirtualTableModule cmv2 cap db name context
          xDestroy =
        cmv2 db name (SwiftVirtualTableModule cap) context xDestroy := by
  intros
  exact ⟨rfl, rfl, rfl, rfl, rfl, rfl, rfl, rfl, rfl, rfl, rfl, rfl, rfl, rfl⟩

/-- C2: for every invocation of the shared create/connect entry point and
of the cursor-open entry point, the out-handle cell (`*ppVTab`,
`*ppCursor`) ends up holding the capability's new handle exactly when the
returned status is `SQLITE_OK` (0), and keeps its prior content (no handle
produced) whenever the status is non-zero. -/
theorem c2_out_handle_written_iff_ok :
    ∀ (cap : SwiftCapabilities) (db : Sqlite3) (context : VoidPtr)
      (argc : Int) (argv : CharPP) (ppVTab : Option VTabHandle)
      (pzErr : Option String) (isCreate : Int) (pVTab : VTabHandle)
      (ppCursor : Option CursorHandle),
      (swiftCreate cap db context argc argv ppVTab pzErr isCreate).ppVTab =
        (if (cap.SQLiteExtensionKit_VirtualTableCreate context db argc argv
              none pzErr isCreate).rc = SQLITE_OK
         then (cap.SQLiteExtensionKit_VirtualTableCreate context db argc argv
            none pzErr isCreate).outTable
         else ppVTab) ∧
      (swiftOpen cap pVTab ppCursor).ppCursor =
        (if (cap.SQLiteExtensionKit_VirtualTableOpen pVTab none).rc = SQLITE_OK
         then (cap.SQLiteExtensionKit_VirtualTableOpen pVTab none).outCursor
         else ppCursor) := by
  intros
  exact ⟨rfl, rfl⟩

/-- C3: the engine-facing create and connect entry points are the shared
factory `swiftCreate` at `isCreate = 1` and `isCreate = 0` respectively,
with all other arguments passed through identically. -/
theorem c3_create_connect_shared_factory :
    ∀ (cap : SwiftCapabilities) (db : Sqlite3) (context : VoidPtr)
      (argc : Int) (argv : CharPP) (ppVTab : Option VTabHandle)
      (pzErr : Option String),
      swiftCreateThunk cap db context argc argv ppVTab pzErr =
        swiftCreate cap db context argc argv ppVTab pzErr 1 ∧
      swiftConnectThunk cap db context argc argv ppVTab pzErr =
        swiftCreate cap db context argc argv ppVTab pzErr 0 := by
  intros
  exact ⟨rfl, rfl⟩

/-- C4: for every non-null table handle and every non-null message `M`,
the error-setter stores exactly `M` (a copy made by
`sqlite3_mprintf("%s", ...)`) in the handle's `zErrMsg` slot, replacing
whatever message was stored before and leaving the other header fields
untouched — no concatenation with the old contents and no truncation. -/
theorem c4_set_error_stores_exact_message :
    ∀ (v : Sqlite3VtabState) (M : String),
      SQLiteExtensionKit_VirtualTableSetError (some v) (some M) =
        some { pModule := v.pModule, nRef := v.nRef, zErrMsg := some M } := by
  intros
  rfl

/-- C5: the error-setter called on a `NULL` table handle is a no-op for
every message argument: no state is produced or modified. -/
theorem c5_set_error_null_handle_noop :
    ∀ (message : Option String),
      SQLiteExtensionKit_VirtualTableSetError none message = none := by
  intros
  rfl

/-- C6: the plan tag round-trips unchanged: the filter entry point hands
the capability exactly the numeric tag, string tag, argument list and
argument count it received from the engine (the capability takes the list
before the count), and the planning entry point hands the capability the
engine's index-info pointer unmodified. -/
theorem c6_plan_tag_round_trip :
    ∀ (cap : SwiftCapabilities) (pCursor : CursorHandle) (idxNum : Int)
      (idxStr : Option String) (argc : Int) (argv : List Sqlite3Value)
      (pVTab : VTabHandle) (info : IndexInfo),
      swiftFilter cap pCursor idxNum idxStr argc argv =
        cap.SQLiteExtensionKit_VirtualTableFilter pCursor idxNum idxStr argv
          argc ∧
      swiftBestIndex cap pVTab info =
        cap.SQLiteExtensionKit_VirtualTableBestIndex pVTab info := by
  intros
  exact ⟨rfl, rfl⟩

/-- C7: the registered dispatch table declares version 1 and implements
exactly the version-1 capability set: every slot from create/connect
through rowid-read is populated, and every later slot (update, begin,
sync, commit, rollback, find-function, rename, savepoint, release,
rollback-to) is `NULL`. -/
theorem c7_module_version_one_slots :
    ∀ (cap : SwiftCapabilities),
      (SwiftVirtualTableModule cap).iVersion = 1 ∧
      (SwiftVirtualTableModule cap).xCreate.isSome = true ∧
      (SwiftVirtualTableModule cap).xConnect.isSome = true ∧
      (SwiftVirtualTableModule cap).xBestIndex.isSome = true ∧
      (SwiftVirtualTableModule cap).xDisconnect.isSome = true ∧
      (SwiftVirtualTableModule cap).xDestroy.isSome = true ∧
      (SwiftVirtualTableModule cap).xOpen.isSome = true ∧
      (SwiftVirtualTableModule cap).xClose.isSome = true ∧
      (SwiftVirtualTableModule cap).xFilter.isSome = true ∧
      (SwiftVirtualTableModule cap).xNext.isSome = true ∧
      (SwiftVirtualTableModule cap).xEof.isSome = true ∧
      (SwiftVirtualTableModule cap).xColumn.isSome = true ∧
      (SwiftVirtualTableModule cap).xRowid.isSome = true ∧
      (SwiftVirtualTableModule cap).xUpdate = none ∧
      (SwiftVirtualTableModule cap).xBegin = none ∧
      (SwiftVirtualTableModule cap).xSync = none ∧
      (SwiftVirtualTableModule cap).xCommit = none ∧
      (SwiftVirtualTableModule cap).xRollback = none ∧
      (SwiftVirtualTableModule cap).xFindFunction = none ∧
      (SwiftVirtualTableModule cap).xRename = none ∧
      (SwiftVirtualTableModule cap).xSavepoint = none ∧
      (SwiftVirtualTableModule cap).xRelease = none ∧
      (SwiftVirtualTableModule cap).xRollbackTo = none := by
  intros
  exact ⟨rfl, rfl, rfl, rfl, rfl, rfl, rfl, rfl, rfl, rfl, rfl, rfl, rfl, rfl,
    rfl, rfl, rfl, rfl, rfl, rfl, rfl, rfl, rfl⟩

/-- C8: with the snapshot feature compiled out, every stand-in entry point
fails immediately for every argument combination — the status-returning
stubs (open, get, compare) return the generic failure `SQLITE_ERROR`, the
`void`-returning free stub does nothing — none has any side effect beyond
the failure return, and the only write through the out-handle pointer of
`get` is setting its cell to the `NULL` sentinel (nothing is written when
the pointer itself is `NULL`), so no usable resource is ever produced. -/
theorem c8_snapshot_stubs_fail_generically :
    ∀ (db : Option Sqlite3) (zSchema : Option String)
      (pSnapshot : Option SnapshotHandle)
      (ppSnapshot : Option (Option SnapshotHandle))
      (old : Option SnapshotHandle) (p1 p2 : Option SnapshotHandle),
      sqlite3_snapshot_open db zSchema pSnapshot = SQLITE_ERROR ∧
      (sqlite3_snapshot_get db zSchema ppSnapshot).1 = SQLITE_ERROR ∧
      (sqlite3_snapshot_get db zSchema (some old)).2 = some none ∧
      (sqlite3_snapshot_get db zSchema none).2 = none ∧
      sqlite3_snapshot_free pSnapshot = () ∧
      sqlite3_snapshot_cmp p1 p2 = SQLITE_ERROR := by
  intros
  exact ⟨rfl, rfl, rfl, rfl, rfl, rfl⟩

/-- C9: for every non-null table handle, calling the error-setter with a
`NULL` message stores the fixed default string "Virtual table error" in the
`zErrMsg` slot; the slot is never left empty or merely cleared. -/
theorem c9_set_error_null_message_default :
    ∀ (v : Sqlite3VtabState),
      SQLiteExtensionKit_VirtualTableSetError (some v) none =
        some { pModule := v.pModule, nRef := v.nRef,
               zErrMsg := some "Virtual table error" } := by
  intros
  rfl

/-- C10: the process-wide flag tracks only the most recent initialisation
call: in the static start state the query returns 0, and after any
sequence of calls ending with argument `pApi` the query returns nonzero if
and only if `pApi` was non-null — in particular a later null-pointer call
resets the flag. -/
theorem c10_init_flag_tracks_latest_call :
    SQLiteExtensionKitIsInitialized extensionInitStartState = 0 ∧
    ∀ (calls : List (Option ApiRoutines)) (pApi : Option ApiRoutines),
      (SQLiteExtensionKitIsInitialized (runInitCalls (calls ++ [pApi])) ≠ 0 ↔
        pApi ≠ none) := by
  refine ⟨rfl, ?_⟩
  intro calls pApi
  have h : runInitCalls (calls ++ [pApi]) =
      SQLiteExtensionKitInitialize (runInitCalls calls) pApi := by
    simp [runInitCalls, List.foldl_append]
  rw [h]
  cases pApi with
  | none =>
      simp [ SQLiteExtensionKitIsInitialized, SQLiteExtensionKitInitialize]
  | some a =>
      simp [ SQLiteExtensionKitIsInitialized, SQLiteExtensionKitInitialize]

end SQLiteExtensionKit
